import Mathlib

/-!
Verification of the multilingual CSV sentiment-analysis server (an Express
application delegating analysis of `India.csv` to an external generation
service).  The JavaScript source is shallowly embedded below: rows are ordered
association lists of string columns, JSON values are an inductive type with
rational numbers, the external generation service, the translation service and
the platform JSON parser are oracle parameters, and every route handler is a
pure function returning the HTTP response it would send together with the
number of generation-service invocations it performed.

All strings involved are ASCII, so the JavaScript UTF-16 `length` coincides
with the character count used here.
-/

/-- A parsed CSV row: an ordered mapping from column name to raw string value,
mirroring the objects produced by the `csv-parser` stream. -/
abbrev Row := List (String × String)

/-- JSON values.  Numbers are modelled as rationals (all numerals appearing in
the claims are exactly representable). -/
inductive Json where
  | null
  | bool (b : Bool)
  | num (q : ℚ)
  | str (s : String)
  | arr (items : List Json)
  | obj (fields : List (String × Json))

/-- An HTTP response as produced by `res.status(s).json(body)`. -/
structure HttpResponse where
  status : Nat
  body : Json

/-- The observable shape of a thrown JavaScript error, as inspected by the
`handleError` helper of `app.js` (its `code`, `status` and `message`). -/
structure JsError where
  code : Option String
  status : Option Nat
  message : String

/-- Outcome of a JavaScript computation that may throw. -/
inductive JsResult (α : Type) where
  | ok (val : α)
  | thrown (msg : String)
deriving DecidableEq

/-- First-match lookup in a JSON object field list. -/
def jsonLookup (fields : List (String × Json)) (k : String) : Option Json :=
  match fields with
  | [] => none
  | (k2, v) :: rest => if k2 = k then some v else jsonLookup rest k

/-- JavaScript property assignment `o[k] = v` on an object with unique keys:
an existing key keeps its position, a new key is appended. -/
def jsSet (fields : List (String × Json)) (k : String) (v : Json) : List (String × Json) :=
  if fields.any (fun p => p.1 = k) then
    fields.map (fun p => if p.1 = k then (k, v) else p)
  else fields ++ [(k, v)]

/-- JavaScript object spread `\x7b ...base, ...v \x7d`: the own enumerable
entries of `v` are assigned into `base` in order (later entries override
earlier keys).  Spreading an array or string contributes index keys;
spreading a primitive contributes nothing. -/
def jsSpreadInto (base : List (String × Json)) (v : Json) : List (String × Json) :=
  match v with
  | .obj fields => fields.foldl (fun acc p => jsSet acc p.1 p.2) base
  | .arr items => (items.enum.map (fun p => (toString p.1, p.2))).foldl
      (fun acc p => jsSet acc p.1 p.2) base
  | .str s => (s.data.enum.map (fun p => (toString p.1, Json.str (String.mk [p.2])))).foldl
      (fun acc p => jsSet acc p.1 p.2) base
  | _ => base

/-- Field access on a JSON value (`j.k`), `none` when absent or not an object. -/
def Json.getField (j : Json) (k : String) : Option Json :=
  match j with
  | .obj fields => jsonLookup fields k
  | _ => none

/-- Numeric field projection. -/
def Json.getNum (j : Json) (k : String) : Option ℚ :=
  match j.getField k with
  | some (.num q) => some q
  | _ => none

/-- String field projection. -/
def Json.getStr (j : Json) (k : String) : Option String :=
  match j.getField k with
  | some (.str s) => some s
  | _ => none

/-- Array field projection. -/
def Json.getArr (j : Json) (k : String) : Option (List Json) :=
  match j.getField k with
  | some (.arr xs) => some xs
  | _ => none

/-- Does the character list start with the given pattern? -/
def startsWithChars : List Char → List Char → Bool
  | [], _ => true
  | _ :: _, [] => false
  | p :: ps, c :: cs => p = c && startsWithChars ps cs

/-- Does the pattern occur anywhere in the character list? -/
def occursInChars (pat : List Char) : List Char → Bool
  | [] => startsWithChars pat []
  | c :: cs => startsWithChars pat (c :: cs) || occursInChars pat cs

/-- Model of JavaScript `String.prototype.includes`. -/
def strContains (s pat : String) : Bool :=
  occursInChars pat.data s.data

/-- Model of JavaScript `String.prototype.toLowerCase` (ASCII range). -/
def jsToLower (s : String) : String :=
  String.mk (s.data.map Char.toLower)

/-- Whitespace as stripped by JavaScript `String.prototype.trim`. -/
def isJsWhitespace (c : Char) : Bool :=
  c = ' ' || c = '\t' || c = '\n' || c = '\r'

/-- Model of JavaScript `String.prototype.trim`. -/
def jsTrim (s : String) : String :=
  String.mk (((s.data.dropWhile isJsWhitespace).reverse.dropWhile isJsWhitespace).reverse)

/-- Model of JavaScript `Array.prototype.join(sep)`. -/
def joinSep (sep : String) : List String → String
  | [] => ""
  | [x] => x
  | x :: y :: xs => x ++ sep ++ joinSep sep (y :: xs)

/-- Concatenation of a list of strings (the `forEach`-append idiom). -/
def concatStrings : List String → String
  | [] => ""
  | x :: xs => x ++ concatStrings xs

/-- Model of JavaScript `Array.prototype.slice(s, e)` for non-negative
bounds: the elements with indices in `[s, e)`. -/
def sliceJs (l : List α) (s e : Nat) : List α :=
  (l.take e).drop s

/-- The sampling window of `parseCsv` in `app.js`:
`endIndex = Math.min(startingIndex + maxRows, rows.length)` followed by
`rows.slice(startingIndex, endIndex)`. -/
def sampleRowsOf (rows : List α) (startingIndex maxRows : Nat) : List α :=
  sliceJs rows startingIndex (min (startingIndex + maxRows) rows.length)

/-- `START_INDEX` of `app.js`. -/
def START_INDEX : Nat := 0

/-- `MAX_ROWS` of `app.js`. -/
def MAX_ROWS : Nat := 100

/-- `estimateTokens` of `app.js` (and the inline estimate of the
full-analysis route): `Math.ceil(compactCsv.length / 4) + 500`. -/
def estimateTokens (compactCsv : String) : Nat :=
  (compactCsv.length + 3) / 4 + 500

/-- `MAX_TOKENS` of the full-analysis route. -/
def MAX_TOKENS : Nat := 2000000

/-- The compact CSV rendering of the full-analysis route: header line,
one line per sampled row with each value wrapped in double quotes and the
values comma-joined, and a trailing note stating the full dataset size. -/
def renderCompactCsv (headers : List String) (sampleVals : List (List String))
    (totalRows sampledCount : Nat) : String :=
  "Headers: " ++ joinSep "," headers
    ++ "\n\nSample Data (" ++ toString sampledCount ++ " of " ++ toString totalRows
    ++ " rows sampled for analysis):\n"
    ++ concatStrings (sampleVals.map (fun vals =>
        joinSep "," (vals.map (fun v => "\"" ++ v ++ "\"")) ++ "\n"))
    ++ "\n\nFull dataset has " ++ toString totalRows
    ++ " rows. Extrapolate trends from this sample."

/-- Doubling-escape of interior double quotes, on characters. -/
def escQuoteChars : List Char → List Char
  | [] => []
  | c :: cs => if c = '"' then '"' :: '"' :: escQuoteChars cs else c :: escQuoteChars cs

/-- Doubling-escape of interior double quotes. -/
def escQuote (v : String) : String :=
  String.mk (escQuoteChars v.data)

/-- Modelled from the spec: the rendering the specification describes, in
which a quote character occurring inside a value is escaped by doubling.
It differs from `renderCompactCsv` (the code) only in the quoting of
values. -/
def renderSpecCsv (headers : List String) (sampleVals : List (List String))
    (totalRows sampledCount : Nat) : String :=
  "Headers: " ++ joinSep "," headers
    ++ "\n\nSample Data (" ++ toString sampledCount ++ " of " ++ toString totalRows
    ++ " rows sampled for analysis):\n"
    ++ concatStrings (sampleVals.map (fun vals =>
        joinSep "," (vals.map (fun v => "\"" ++ escQuote v ++ "\"")) ++ "\n"))
    ++ "\n\nFull dataset has " ++ toString totalRows
    ++ " rows. Extrapolate trends from this sample."

/-- Column names of the first sampled row (`Object.keys(sampleRows[0])`). -/
def headersOf (sampleRows : List Row) : List String :=
  (sampleRows.headD []).map Prod.fst

/-- The `compactCsv` string built by the full-analysis route for a dataset. -/
def compactCsvOf (rows : List Row) : String :=
  let sampleRows := sliceJs rows 0 1000
  renderCompactCsv (headersOf sampleRows) (sampleRows.map (fun r => r.map Prod.snd))
    rows.length sampleRows.length

/-- The translation prompt of `translateText`. -/
def translatePrompt (targetLanguage text : String) : String :=
  "Translate the following text into " ++ targetLanguage
    ++ ". Return ONLY the translated text. Text to translate: " ++ text

/-- `translateText(text, targetLanguage)` of `app.js`.  `targetLanguage` is
`Option String` (`none` models `undefined`); the translation service is the
oracle `svc`, whose `none` outcome models a thrown API error (or a missing
`text` field, whose `trim` would equally throw inside the guarded block).
Returns the JavaScript outcome together with the number of external
translation calls issued.  Note the source evaluates `!text` before touching
`targetLanguage`, so an empty text never reaches `toLowerCase`; a `none`
language with non-empty text, however, throws a `TypeError`. -/
def translateText (text : String) (targetLanguage : Option String)
    (svc : String → Option String) : JsResult String × Nat :=
  if text = "" then (.ok text, 0)
  else
    match targetLanguage with
    | none => (.thrown "TypeError: Cannot read properties of undefined (reading toLowerCase)", 0)
    | some lang =>
      if jsToLower lang = "english" then (.ok text, 0)
      else
        match svc (translatePrompt lang text) with
        | some t => (.ok (jsTrim t), 1)
        | none => (.ok text, 1)

/-- `translateText` specialised to a present target language, in which case it
never throws (the form in which every route invokes it). -/
def runTranslate (text lang : String) (svc : String → Option String) : String × Nat :=
  if text = "" then (text, 0)
  else if jsToLower lang = "english" then (text, 0)
  else
    match svc (translatePrompt lang text) with
    | some t => (jsTrim t, 1)
    | none => (text, 1)

/-- The translation fan-out of the insights route
(`Promise.all(insights.map((insight) => translateText(insight, lang)))`),
read off positionally. -/
def translateInsights (fields : List String) (lang : String)
    (svc : String → Option String) : List String :=
  fields.map (fun t => (runTranslate t lang svc).1)

/-- `Promise.all` reassembly: completions arrive in an arbitrary order as
(index, value) pairs and each is stored at its original index. -/
def reassemble (n : Nat) (arrivals : List (Nat × String)) : List (Option String) :=
  arrivals.foldl (fun acc p => acc.set p.1 (some p.2)) (List.replicate n none)

/-- The concurrent translation fan-out: the calls for all fields are issued,
complete in the arbitrary order `order`, and are reassembled by original
index per `Promise.all` semantics. -/
def concTranslate (fields : List String) (lang : String)
    (svc : String → Option String) (order : List Nat) : List (Option String) :=
  reassemble fields.length
    (order.map (fun i => (i, (runTranslate (fields.getD i "") lang svc).1)))

/-- JavaScript falsiness of a JSON value (`!text`).  `NaN` is not
representable here; arrays and objects are always truthy. -/
def jsFalsy : Json → Bool
  | .null => true
  | .bool b => !b
  | .num q => q = 0
  | .str s => s = ""
  | .arr _ => false
  | .obj _ => false

/-- JavaScript `text.length === 0` on a JSON value: strings and arrays have a
`length` property, every other value yields `undefined`, which is not 0. -/
def jsLengthIsZero : Json → Bool
  | .str s => s = ""
  | .arr items => items.isEmpty
  | _ => false

/-- Is the JSON value null? -/
def jsIsNull : Json → Bool
  | .null => true
  | _ => false

/-- JavaScript template-literal coercion of a JSON value to a string.  Exact
for null, booleans, integer numbers and strings; a non-integer number is
rendered as a fraction (JavaScript would print the decimal expansion of the
double) and nested structures follow `Array.prototype.toString` (null
elements join as empty) / `[object Object]`.  No theorem depends on the
approximate cases. -/
def jsTemplateString : Json → String
  | .null => "null"
  | .bool b => if b then "true" else "false"
  | .num q => if q.den = 1 then toString q.num else toString q
  | .str s => s
  | .arr items => joinSep "," (items.attach.map (fun jp =>
      if jsIsNull jp.1 then "" else jsTemplateString jp.1))
  | .obj _ => "[object Object]"
decreasing_by
  have := List.sizeOf_lt_of_mem jp.2
  simp only [Json.arr.sizeOf_spec]
  omega

/-- `translateText` applied to an arbitrary JSON value (as the insights,
trends and summary routes do when the parsed output carries non-string
fields): a falsy or zero-`length` value passes through unchanged; any other
value is coerced into the prompt, one service call is issued, and the result
is the trimmed translation string — or the original value when the call
fails.  On a string this agrees with `runTranslate`. -/
def translateJsonItem (item : Json) (lang : String) (svc : String → Option String) : Json :=
  match item with
  | Json.str t => Json.str (runTranslate t lang svc).1
  | other =>
    if jsFalsy other || jsLengthIsZero other then other
    else if jsToLower lang = "english" then other
    else
      match svc (translatePrompt lang (jsTemplateString other)) with
      | some t => Json.str (jsTrim t)
      | none => other

/-- `handleError` of `app.js`: ad hoc classification of a thrown error by its
`code`, `status` and message substrings. -/
def handleError (e : JsError) : HttpResponse :=
  if e.code = some "ENOENT" then
    ⟨404, Json.obj [("error", Json.str "India.csv file not found.")]⟩
  else if strContains e.message "token count exceeds" then
    ⟨400, Json.obj [("error",
      Json.str "Input too large for model. Try a smaller CSV or increase sampling limit.")]⟩
  else if e.status = some 400 ∧ strContains e.message "response_schema" then
    ⟨400, Json.obj [("error", Json.str "Schema validation failed—check config."),
      ("details", Json.str e.message)]⟩
  else
    ⟨500, Json.obj [("error", Json.str "Failed to process CSV file with Gemini API."),
      ("details", Json.str e.message)]⟩

/-- The prompt of the full-analysis route.  (The punctuation quoting the field
names `summary`, `statistics`, `insights` in the instruction tail is elided;
the instruction text is only ever passed to the generation oracle.) -/
def analyzePrompt (totalRows : Nat) (compactCsv : String) : String :=
  "Here is sampled data from India.csv (full size: " ++ toString totalRows
    ++ " rows):\n\n" ++ compactCsv ++ "\n\n"
    ++ "Analyze this data and return the analysis STRICTLY in the JSON schema provided, no extra text, explanations, or markdown. "
    ++ "Include a summary of key findings, "
    ++ "a statistics object with metrics like average or total for relevant columns (use sample data; e.g., include avg_value, total_count, and any column-specific like gdp_avg), "
    ++ "and an insights array highlighting any notable trends or observations. "
    ++ "Extrapolate to the full dataset where possible."

/-- The `/analyze-india-csv` route handler of the standalone variant of the
application.  `rows` is the dataset already decoded from `India.csv` (file
reading itself is plumbing outside this embedding), `gen` is the generation
service (its `error` outcome a thrown service error) and `parse` is the
platform JSON parser (its `error` outcome a thrown `SyntaxError` with the
given message).  Returns the response sent and the number of
generation-service invocations.  On a successful parse the metadata is
assigned onto the parsed value: on an object it is added as a field; on an
array the assignment succeeds but JSON serialisation of an array drops
non-index properties, so the reply is the array unchanged; on a primitive
the strict-mode assignment throws a `TypeError` into the catch. -/
def analyzeIndiaCsv (rows : List Row) (gen : String → Except JsError String)
    (parse : String → Except String Json) : HttpResponse × Nat :=
  if rows = [] then
    (⟨400, Json.obj [("error", Json.str "CSV file is empty.")]⟩, 0)
  else
    let sampleRows := sliceJs rows 0 1000
    let compactCsv := compactCsvOf rows
    let estimatedTokens := estimateTokens compactCsv
    if MAX_TOKENS < estimatedTokens then
      (⟨400, Json.obj [("error", Json.str ("CSV too large (" ++ toString estimatedTokens
        ++ " estimated tokens). Sample only "
        ++ toString ((MAX_TOKENS * 4) / (headersOf sampleRows).length / 10)
        ++ " rows or use a smaller file."))]⟩, 0)
    else
      match gen (analyzePrompt rows.length compactCsv) with
      | .error e => (handleError e, 1)
      | .ok responseText =>
        if responseText = "" then
          (⟨500, Json.obj [("error", Json.str "Gemini returned empty response."),
            ("result", Json.str "")]⟩, 1)
        else
          match parse responseText with
          | .error pmsg =>
            (⟨500, Json.obj [("error", Json.str "Gemini returned invalid JSON format."),
              ("geminiResponse", Json.str responseText),
              ("parseError", Json.str pmsg)]⟩, 1)
          | .ok analysis =>
            match analysis with
            | Json.obj fields =>
              (⟨200, Json.obj (jsSet fields "metadata" (Json.obj
                [("fullRows", Json.num (rows.length : ℚ)),
                 ("sampledRows", Json.num ((sliceJs rows 0 1000).length : ℚ)),
                 ("estimatedTokens", Json.num (estimatedTokens : ℚ))]))⟩, 1)
            | Json.arr items =>
              (⟨200, Json.arr items⟩, 1)
            | _ =>
              (handleError ⟨none, none, "TypeError: Cannot create property metadata"⟩, 1)

/-- The prompt of the sentiment-count route. -/
def countPrompt (totalRows : Nat) (sampleVals : List (List String)) : String :=
  "Here is sampled data from India.csv (full dataset has " ++ toString totalRows
    ++ " rows):\n\n"
    ++ joinSep "\n" (sampleVals.map (joinSep ","))
    ++ "\n\nCount the number of positive, negative, and neutral tweets in the dataset and return the result in the following JSON format:\n\n"
    ++ "\x7b\n  \"positive\": 0,\n  \"negative\": 0,\n  \"neutral\": 0,\n  \"positive_percent\": 0.0,\n  \"negative_percent\": 0.0,\n  \"neutral_percent\": 0.0\n\x7d"

/-- The `/count-sentiment-india-csv` route handler of `app.js`.  An empty
dataset makes `parseCsv` throw, which the route surfaces through
`handleError`; an empty generation output and an unparseable output get the
dedicated 500 responses; a successfully parsed output is returned verbatim
with no further validation. -/
def countSentimentHandler (rows : List Row) (gen : String → Except JsError String)
    (parse : String → Except String Json) : HttpResponse × Nat :=
  if rows = [] then (handleError ⟨none, none, "CSV file is empty."⟩, 0)
  else
    let sampleRows := sampleRowsOf rows START_INDEX MAX_ROWS
    match gen (countPrompt rows.length (sampleRows.map (fun r => r.map Prod.snd))) with
    | .error e => (handleError e, 1)
    | .ok responseText =>
      if responseText = "" then
        (⟨500, Json.obj [("error", Json.str "Gemini returned empty response."),
          ("result", Json.str "")]⟩, 1)
      else
        match parse responseText with
        | .error pmsg =>
          (⟨500, Json.obj [("error", Json.str "Gemini returned invalid JSON format."),
            ("geminiResponse", Json.str responseText),
            ("parseError", Json.str pmsg)]⟩, 1)
        | .ok sentimentCounts => (⟨200, sentimentCounts⟩, 1)

/-- Lookup of a column value in a row. -/
def rowLookup (row : Row) (k : String) : Option String :=
  match row with
  | [] => none
  | (k2, v) :: rest => if k2 = k then some v else rowLookup rest k

/-- JavaScript `a || b` on possibly-undefined strings: an empty string is
falsy, so it falls through to `b`. -/
def jsOr (a b : Option String) : Option String :=
  match a with
  | some v => if v = "" then b else some v
  | none => b

/-- The identifier under which a sampled record is presented to the
per-record sentiment task (`row.id || row[0]`, interpolated). -/
def rowId (row : Row) : String :=
  (jsOr (rowLookup row "id") (rowLookup row "0")).getD "undefined"

/-- One line of the tweet data block (`ID: ... | TEXT: ...`). -/
def tweetLine (row : Row) : String :=
  "ID: " ++ rowId row ++ " | TEXT: "
    ++ (jsOr (rowLookup row "tweet") (rowLookup row "6")).getD "undefined"

/-- The prompt of the per-record sentiment route. -/
def multiTweetPrompt (totalSampledTweets : Nat) (tweetData : String) : String :=
  "**Role:** You are a **proud Indian diplomat** and a multilingual sentiment analysis expert. Your classification must reflect an informed, nuanced perspective focused on **national interest, cultural pride, and constructive commentary**.\n\n"
    ++ "Analyze the sentiment for each of the " ++ toString totalSampledTweets
    ++ " tweets provided below, regardless of the language.\n\n"
    ++ "**Classification Rules (5-Point Scale):** You must classify the sentiment using a numerical score from 1 to 5.\n\n"
    ++ "- **5 (STRONGLY POSITIVE):** Clear excitement, strong support, emphatic praise, or clear national pride/celebration.\n"
    ++ "- **4 (SLIGHTLY POSITIVE):** Expresses mild approval, light optimism, satisfaction, or a subtle celebration.\n"
    ++ "- **3 (NEUTRAL/FACTUAL):** **USE SPARINGLY.** Only classify as 3 if the tweet is purely **factual reporting** (e.g., an announcement, a non-opinionated link share) AND contains absolutely no implied or expressed opinion.\n"
    ++ "- **2 (SLIGHTLY NEGATIVE):** Expresses mild concern, constructive criticism, or minor dissatisfaction.\n"
    ++ "- **1 (STRONGLY NEGATIVE):** Clear outrage, strong condemnation, significant fear, or deep pessimism.\n\n"
    ++ "Return ONLY a single JSON object containing an array of results. The output must adhere strictly to the provided JSON Schema.\n\n"
    ++ "Tweet Data (ID | TEXT):\n---\n" ++ tweetData ++ "\n---"

/-- The `/analyze-multiple-tweets-sentiment` route handler of `app.js`.
After a successful parse the route replies with
`res.json(\x7b count: totalSampledTweets, ...sentimentResults \x7d)`:
the parsed object is spread after the `count` entry, so its own entries
(including a `count` entry, if the service produced one) override, and no
property of the parsed result is validated against the sample. -/
def analyzeMultipleTweetsHandler (rows : List Row) (gen : String → Except JsError String)
    (parse : String → Except String Json) : HttpResponse × Nat :=
  if rows = [] then (handleError ⟨none, none, "CSV file is empty."⟩, 0)
  else
    let sampleRows := sampleRowsOf rows START_INDEX MAX_ROWS
    let totalSampledTweets := sampleRows.length
    let tweetData := joinSep "\n" (sampleRows.map tweetLine)
    match gen (multiTweetPrompt totalSampledTweets tweetData) with
    | .error e => (handleError e, 1)
    | .ok responseText =>
      if responseText = "" then
        (⟨500, Json.obj [("error", Json.str "Gemini returned empty response.")]⟩, 1)
      else
        match parse responseText with
        | .error _ =>
          (⟨500, Json.obj [("error", Json.str "Gemini returned invalid JSON format. Check raw output."),
            ("geminiResponse", Json.str responseText)]⟩, 1)
        | .ok sentimentResults =>
          (⟨200, Json.obj (jsSpreadInto
            [("count", Json.num (totalSampledTweets : ℚ))] sentimentResults)⟩, 1)

/-- The prompt of the insights route. -/
def insightsPrompt (sampleVals : List (List String)) : String :=
  "Generate insights from the following tweeter CSV data:\n\n"
    ++ joinSep "\n" (sampleVals.map (joinSep ","))
    ++ "\n\nReturn the insights in the following JSON format:\n\n"
    ++ "\x7b\n  \"insights\": [\"Insight 1: Notable trend or observation.\", \"Insight 2: Any shift in data or unusual pattern.\"]\n\x7d"

/-- The `/generate-insights-india-csv` route handler of `app.js`.  The raw
generation output is fed straight to `JSON.parse` with no emptiness check and
no dedicated parse-failure response: any throw (including the `SyntaxError`
the platform parser raises on an empty or malformed string) lands in the
route's generic catch and goes through `handleError`.  A non-array `insights`
field reaching the translating branch would throw on `.map` and likewise land
in the catch. -/
def generateInsightsHandler (rows : List Row) (lang : Option String)
    (gen : String → Except JsError String) (parse : String → Except String Json)
    (tsvc : String → Option String) : HttpResponse × Nat :=
  if rows = [] then (handleError ⟨none, none, "CSV file is empty."⟩, 0)
  else
    let sampleRows := sampleRowsOf rows START_INDEX MAX_ROWS
    let effLang := match lang with
      | none => "english"
      | some l => if l = "" then "english" else l
    match gen (insightsPrompt (sampleRows.map (fun r => r.map Prod.snd))) with
    | .error e => (handleError e, 1)
    | .ok responseText =>
      match parse responseText with
      | .error pmsg => (handleError ⟨none, none, pmsg⟩, 1)
      | .ok j =>
        if jsToLower effLang = "english" then
          (⟨200, Json.obj (match j.getField "insights" with
            | some v => [("insights", v)]
            | none => [])⟩, 1)
        else
          match j.getField "insights" with
          | some (Json.arr items) =>
            (⟨200, Json.obj [("insights", Json.arr
              (items.map (fun it => translateJsonItem it effLang tsvc)))]⟩, 1)
          | _ => (handleError ⟨none, none, "TypeError: insights.map is not a function"⟩, 1)

/-- The prompt of the trends route. -/
def trendsPrompt (sampleVals : List (List String)) : String :=
  "Analyze the trends in the following tweeter CSV data:\n\n"
    ++ joinSep "\n" (sampleVals.map (joinSep ","))
    ++ "\n\nIdentify 2-3 significant trends. Return the trends with their description in ENGLISH ONLY in the following JSON format:\n\n"
    ++ "\x7b\n  \"trends\": [\n    \x7b \"title\": \"Trend Title 1\", \"description\": \"Detailed description of the first trend.\" \x7d,\n    \x7b \"title\": \"Trend Title 2\", \"description\": \"Detailed description of the second trend.\" \x7d\n  ]\n\x7d"

/-- One step of the trends route's translation loop, for one element of
`trendsResult.trends`: an object gets its `title` and `description` fields
passed through `translateText` (an absent field stays absent, as `res.json`
drops an `undefined` value; a null field is falsy and passes through); a
null element makes the property access throw, aborting the loop into the
route's catch; any other element has neither property and yields an object
that serialises empty. -/
def translateTrendItem (item : Json) (lang : String) (tsvc : String → Option String) :
    Except String Json :=
  match item with
  | Json.null => .error "TypeError: Cannot read properties of null"
  | Json.obj fields =>
    .ok (Json.obj
      ((match jsonLookup fields "title" with
        | some v => [("title", translateJsonItem v lang tsvc)]
        | none => []) ++
       (match jsonLookup fields "description" with
        | some v => [("description", translateJsonItem v lang tsvc)]
        | none => [])))
  | _ => .ok (Json.obj [])

/-- The `/analyze-trends-india-csv` route handler of `app.js`.  The raw
generation output goes straight to `JSON.parse` with no emptiness check and
no dedicated parse catch; any throw lands in the route's own catch, which
answers a generic `Internal Server Error` response (this route does not use
`handleError`).  When a truthy, non-english `lang` is supplied, the route
iterates `trendsResult.trends` sequentially, translating each trend's title
and description; `for...of` over a string trends field iterates its
characters (each yielding an empty object), and a non-iterable trends field
throws into the catch. -/
def analyzeTrendsHandler (rows : List Row) (lang : Option String)
    (gen : String → Except JsError String) (parse : String → Except String Json)
    (tsvc : String → Option String) : HttpResponse × Nat :=
  if rows = [] then
    (⟨500, Json.obj [("message", Json.str "Internal Server Error"),
      ("error", Json.str "CSV file is empty.")]⟩, 0)
  else
    let sampleRows := sampleRowsOf rows START_INDEX MAX_ROWS
    match gen (trendsPrompt (sampleRows.map (fun r => r.map Prod.snd))) with
    | .error e =>
      (⟨500, Json.obj [("message", Json.str "Internal Server Error"),
        ("error", Json.str e.message)]⟩, 1)
    | .ok responseText =>
      match parse responseText with
      | .error pmsg =>
        (⟨500, Json.obj [("message", Json.str "Internal Server Error"),
          ("error", Json.str pmsg)]⟩, 1)
      | .ok trendsResult =>
        let doTranslate :=
          match lang with
          | none => false
          | some l =>
            if l = "" then false else if jsToLower l = "english" then false else true
        if doTranslate then
          match trendsResult with
          | Json.obj fields =>
            match jsonLookup fields "trends" with
            | some (Json.arr items) =>
              match items.mapM (fun it => translateTrendItem it (lang.getD "") tsvc) with
              | .ok translated =>
                (⟨200, Json.obj (jsSet fields "trends" (Json.arr translated))⟩, 1)
              | .error m =>
                (⟨500, Json.obj [("message", Json.str "Internal Server Error"),
                  ("error", Json.str m)]⟩, 1)
            | some (Json.str s) =>
              (⟨200, Json.obj (jsSet fields "trends"
                (Json.arr (s.data.map (fun _ => Json.obj []))))⟩, 1)
            | _ =>
              (⟨500, Json.obj [("message", Json.str "Internal Server Error"),
                ("error", Json.str "TypeError: trendsResult.trends is not iterable")]⟩, 1)
          | _ =>
            (⟨500, Json.obj [("message", Json.str "Internal Server Error"),
              ("error", Json.str "TypeError: trendsResult.trends is not iterable")]⟩, 1)
        else (⟨200, trendsResult⟩, 1)

/-- The prompt of the summary route. -/
def summaryPrompt (sampleVals : List (List String)) : String :=
  "Generate a short summary of the key findings from the following tweeter CSV data:\n\n"
    ++ joinSep "\n" (sampleVals.map (joinSep ","))
    ++ "\n\nReturn the summary in the following JSON format:\n\n"
    ++ "\x7b\n  \"summary\": \"Short overall summary of key findings from the data.\"\n\x7d"

/-- The `/generate-summary-india-csv` route handler of `app.js`.  Like the
insights route, the raw output goes straight to `JSON.parse`; a throw lands
in the route's catch and goes through `handleError`.  The `summary` field is
read off the parsed value (possibly absent) and passed through
`translateText` when a non-english language is requested; an absent field
stays absent in the reply, since `res.json` drops an `undefined` value. -/
def generateSummaryHandler (rows : List Row) (lang : Option String)
    (gen : String → Except JsError String) (parse : String → Except String Json)
    (tsvc : String → Option String) : HttpResponse × Nat :=
  if rows = [] then (handleError ⟨none, none, "CSV file is empty."⟩, 0)
  else
    let sampleRows := sampleRowsOf rows START_INDEX MAX_ROWS
    let effLang := match lang with
      | none => "english"
      | some l => if l = "" then "english" else l
    match gen (summaryPrompt (sampleRows.map (fun r => r.map Prod.snd))) with
    | .error e => (handleError e, 1)
    | .ok responseText =>
      match parse responseText with
      | .error pmsg => (handleError ⟨none, none, pmsg⟩, 1)
      | .ok j =>
        if jsToLower effLang = "english" then
          (⟨200, Json.obj (match j.getField "summary" with
            | some v => [("summary", v)]
            | none => [])⟩, 1)
        else
          (⟨200, Json.obj (match j.getField "summary" with
            | some v => [("summary", translateJsonItem v effLang tsvc)]
            | none => [])⟩, 1)

/-- The sentiment-count envelope: the object shape the sentiment-count task
instructs the generation service to return. -/
def sentimentEnvelope (p n u pp np up : ℚ) : Json :=
  Json.obj [("positive", Json.num p), ("negative", Json.num n), ("neutral", Json.num u),
    ("positive_percent", Json.num pp), ("negative_percent", Json.num np),
    ("neutral_percent", Json.num up)]

/-- The sampling window coincides with drop-then-take. -/
theorem sampleRowsOf_eq_drop_take {α : Type} (rows : List α) (off maxW : Nat) :
    sampleRowsOf rows off maxW = (rows.drop off).take maxW := by
  apply List.ext_getElem?
  intro i
  simp only [sampleRowsOf, sliceJs, List.getElem?_drop, List.getElem?_take]
  split_ifs with h1 h2 h2
  · rfl
  · omega
  · exact (List.getElem?_eq_none (by omega)).symm
  · rfl

/-- Claim C2: the Sampler returns the contiguous window of the dataset
starting at `off` of length exactly `min maxW (|rows| - off)` when
`off < |rows|`, the empty sample when `off ≥ |rows|`, with every element
taken in order from the dataset at its original position (the clamping is
silent, and the function is deterministic by construction). -/
theorem c2_sampler_window {α : Type} (rows : List α) (off maxW : Nat) :
    sampleRowsOf rows off maxW = (rows.drop off).take maxW ∧
    (off < rows.length →
      (sampleRowsOf rows off maxW).length = min maxW (rows.length - off)) ∧
    (rows.length ≤ off → sampleRowsOf rows off maxW = []) ∧
    (∀ i : Nat, i < (sampleRowsOf rows off maxW).length →
      (sampleRowsOf rows off maxW)[i]? = rows[off + i]?) := by
  have h1 := sampleRowsOf_eq_drop_take rows off maxW
  refine ⟨h1, ?_, ?_, ?_⟩
  · intro _
    rw [h1]
    simp
  · intro hle
    rw [h1, List.drop_eq_nil_of_le hle, List.take_nil]
  · intro i hi
    rw [h1] at hi ⊢
    rw [List.length_take, List.length_drop] at hi
    rw [List.getElem?_take, if_pos (by omega), List.getElem?_drop]

/-- Witness for `c2_sampler_window`, at a four-element dataset: offset 1 with
window 2 has length `min 2 (4 - 1)` and takes the element at index 1; offset
9 is past the end and yields the empty sample. -/
theorem c2_sampler_window_witness :
    (sampleRowsOf ["a", "b", "c", "d"] 1 2).length
        = min 2 (List.length ["a", "b", "c", "d"] - 1) ∧
    sampleRowsOf ["a", "b", "c", "d"] 9 2 = ([] : List String) ∧
    (sampleRowsOf ["a", "b", "c", "d"] 1 2)[0]? = ["a", "b", "c", "d"][1 + 0]? :=
  ⟨(c2_sampler_window ["a", "b", "c", "d"] 1 2).2.1 (by decide),
   (c2_sampler_window ["a", "b", "c", "d"] 9 2).2.2.1 (by decide),
   (c2_sampler_window ["a", "b", "c", "d"] 1 2).2.2.2 0 (by decide)⟩

/-- Claim C1: on the full-analysis pipeline, whenever the estimated cost of
the rendered payload (`ceil(length / 4) + 500`) exceeds the configured
ceiling of 2000000, the run fails with the budget-exceeded response before
any generation-service invocation (the invocation counter is 0), and the
failure message carries the suggested smaller sample size
`floor(ceiling * 4 / columnCount / 10)` computed from the ceiling, the
per-unit conversion heuristic and the column count of the sample. -/
theorem c1_budget_guard (rows : List Row) (gen : String → Except JsError String)
    (parse : String → Except String Json) (hne : rows ≠ [])
    (hbig : MAX_TOKENS < estimateTokens (compactCsvOf rows)) :
    analyzeIndiaCsv rows gen parse =
      (⟨400, Json.obj [("error", Json.str ("CSV too large ("
        ++ toString (estimateTokens (compactCsvOf rows))
        ++ " estimated tokens). Sample only "
        ++ toString ((MAX_TOKENS * 4) / (headersOf (sliceJs rows 0 1000)).length / 10)
        ++ " rows or use a smaller file."))]⟩, 0) := by
  simp only [analyzeIndiaCsv, if_neg hne, if_pos hbig]

/-- A member of a joined list contributes its length to the join. -/
theorem le_length_joinSep_of_mem (sep s : String) (l : List String) (h : s ∈ l) :
    s.length ≤ (joinSep sep l).length := by
  induction l with
  | nil => cases h
  | cons x xs ih =>
    cases xs with
    | nil =>
      rcases List.mem_singleton.mp h with rfl
      exact Nat.le_refl _
    | cons y ys =>
      rcases List.mem_cons.mp h with rfl | hmem
      · rw [joinSep, String.length_append, String.length_append]
        omega
      · rw [joinSep, String.length_append, String.length_append]
        have := ih hmem
        omega

/-- A member of a concatenated list contributes its length to the result. -/
theorem le_length_concatStrings_of_mem (s : String) (l : List String) (h : s ∈ l) :
    s.length ≤ (concatStrings l).length := by
  induction l with
  | nil => cases h
  | cons x xs ih =>
    rcases List.mem_cons.mp h with rfl | hmem
    · rw [concatStrings, String.length_append]
      omega
    · rw [concatStrings, String.length_append]
      have := ih hmem
      omega

/-- Every value occurring in the sample contributes its length to the
rendered payload. -/
theorem le_length_renderCompactCsv (headers : List String)
    (sampleVals : List (List String)) (totalRows sampledCount : Nat)
    (row : List String) (v : String) (hrow : row ∈ sampleVals) (hv : v ∈ row) :
    v.length ≤ (renderCompactCsv headers sampleVals totalRows sampledCount).length := by
  have h1 : ("\"" ++ v ++ "\"").length ≤
      (joinSep "," (row.map (fun w => "\"" ++ w ++ "\""))).length :=
    le_length_joinSep_of_mem "," _ _ (List.mem_map_of_mem _ hv)
  have h2 : (joinSep "," (row.map (fun w => "\"" ++ w ++ "\"")) ++ "\n").length ≤
      (concatStrings (sampleVals.map (fun vals =>
        joinSep "," (vals.map (fun w => "\"" ++ w ++ "\"")) ++ "\n"))).length :=
    le_length_concatStrings_of_mem _ _ (List.mem_map_of_mem _ hrow)
  rw [String.length_append] at h2
  rw [String.length_append, String.length_append] at h1
  rw [renderCompactCsv, String.length_append, String.length_append, String.length_append,
    String.length_append, String.length_append, String.length_append, String.length_append,
    String.length_append, String.length_append, String.length_append]
  omega

/-- Witness for `c1_budget_guard`: a one-row, one-column dataset whose single
value has 8000000 characters; its payload estimate exceeds the 2000000
ceiling, the handler answers 400 with the suggested row count and performs
zero generation calls. -/
theorem c1_budget_guard_witness :
    analyzeIndiaCsv [[("c", String.mk (List.replicate 8000000 'a'))]]
        (fun _ => Except.ok "") (fun _ => Except.error "") =
      (⟨400, Json.obj [("error", Json.str ("CSV too large ("
        ++ toString (estimateTokens
              (compactCsvOf [[("c", String.mk (List.replicate 8000000 'a'))]]))
        ++ " estimated tokens). Sample only "
        ++ toString ((MAX_TOKENS * 4) /
              (headersOf (sliceJs [[("c", String.mk (List.replicate 8000000 'a'))]] 0 1000)).length
              / 10)
        ++ " rows or use a smaller file."))]⟩, 0) := by
  apply c1_budget_guard
  · exact List.cons_ne_nil _ _
  · have hc : compactCsvOf [[(("c" : String), String.mk (List.replicate 8000000 'a'))]]
        = renderCompactCsv ["c"] [[String.mk (List.replicate 8000000 'a')]] 1 1 := rfl
    have hv : (String.mk (List.replicate 8000000 'a')).length = 8000000 :=
      (String.length_mk _).trans (List.length_replicate _ _)
    have hge : (String.mk (List.replicate 8000000 'a')).length ≤
        (renderCompactCsv ["c"] [[String.mk (List.replicate 8000000 'a')]] 1 1).length :=
      le_length_renderCompactCsv _ _ _ _ _ _ (List.mem_singleton.mpr rfl)
        (List.mem_singleton.mpr rfl)
    rw [estimateTokens, hc, MAX_TOKENS]
    omega

/-- Doubling-escape is the identity on quote-free character lists. -/
theorem escQuoteChars_of_not_mem (l : List Char) (h : '"' ∉ l) : escQuoteChars l = l := by
  induction l with
  | nil => rfl
  | cons c cs ih =>
    have hc : ¬c = '"' := fun hc => h (hc ▸ List.mem_cons_self c cs)
    simp only [escQuoteChars, if_neg hc]
    rw [ih (fun hm => h (List.mem_cons_of_mem c hm))]

/-- Claim C8 (amended): the full-analysis payload rendering is deterministic
string construction — header line, one quoted comma-joined line per record,
trailing note with the full record count — but interior quote characters are
NOT escaped by doubling; the spec-described doubling rendering agrees with
the code exactly on samples whose values contain no quote character. -/
theorem c8_render_no_quote_agreement (headers : List String)
    (sampleVals : List (List String)) (totalRows sampledCount : Nat)
    (h : ∀ vals ∈ sampleVals, ∀ v ∈ vals, '"' ∉ v.data) :
    renderCompactCsv headers sampleVals totalRows sampledCount
      = renderSpecCsv headers sampleVals totalRows sampledCount := by
  have hm : sampleVals.map (fun vals =>
        joinSep "," (vals.map (fun v => "\"" ++ v ++ "\"")) ++ "\n")
      = sampleVals.map (fun vals =>
        joinSep "," (vals.map (fun v => "\"" ++ escQuote v ++ "\"")) ++ "\n") := by
    apply List.map_congr_left
    intro vals hvals
    have hinner : vals.map (fun v => "\"" ++ v ++ "\"")
        = vals.map (fun v => "\"" ++ escQuote v ++ "\"") := by
      apply List.map_congr_left
      intro v hv
      have : escQuote v = v := by
        show String.mk (escQuoteChars v.data) = v
        rw [escQuoteChars_of_not_mem v.data (h vals hvals v hv)]
      rw [this]
    rw [hinner]
  simp only [renderCompactCsv, renderSpecCsv, hm]

/-- The claim C8 counterexample: on a sample whose value contains a quote
character, the payload the code renders differs from the doubling-escaped
rendering the claim describes. -/
theorem c8_counterexample :
    renderCompactCsv ["col"] [["a\"b"]] 1 1 ≠ renderSpecCsv ["col"] [["a\"b"]] 1 1 := by
  decide

/-- Witness for `c8_render_no_quote_agreement` on a quote-free sample. -/
theorem c8_render_no_quote_agreement_witness :
    renderCompactCsv ["col"] [["ab"]] 1 1 = renderSpecCsv ["col"] [["ab"]] 1 1 :=
  c8_render_no_quote_agreement ["col"] [["ab"]] 1 1 (by decide)

/-- Claim C4 (amended): `translateText` is a no-op — the field's text returned
unchanged with zero external calls — when the text is empty or when the
target language is present and case-insensitively equal to "english"; but
when the target language is unspecified/absent and the text is non-empty it
throws a `TypeError` (still issuing zero external calls) instead of returning
the text.  The routes avoid that case by defaulting the language to
"english" or guarding the call. -/
theorem c4_translate_noop (text : String) (lang : Option String)
    (svc : String → Option String) :
    (∀ l, lang = some l → jsToLower l = "english" →
      translateText text lang svc = (.ok text, 0)) ∧
    (text = "" → translateText text lang svc = (.ok text, 0)) ∧
    (text ≠ "" → translateText text none svc =
      (.thrown "TypeError: Cannot read properties of undefined (reading toLowerCase)", 0)) := by
  refine ⟨?_, ?_, ?_⟩
  · intro l hl hlow
    subst hl
    by_cases ht : text = ""
    · simp [translateText, ht]
    · simp [translateText, ht, hlow]
  · intro ht
    simp [translateText, ht]
  · intro ht
    simp [translateText, ht]

/-- The claim C4 counterexample: with an absent target language and a
non-empty field, `translateText` throws rather than returning the field
unchanged. -/
theorem c4_counterexample :
    translateText "hello" none (fun _ => some "x")
        = (.thrown "TypeError: Cannot read properties of undefined (reading toLowerCase)", 0) ∧
    (translateText "hello" none (fun _ => some "x")).1 ≠ JsResult.ok "hello" := by
  exact ⟨rfl, by decide⟩

/-- Witness for `c4_translate_noop` at concrete inputs: a case-insensitive
"English" target and an empty field are no-ops with zero calls; an absent
target with non-empty text throws. -/
theorem c4_translate_noop_witness :
    translateText "hola" (some "English") (fun _ => some "x") = (.ok "hola", 0) ∧
    translateText "" (some "hindi") (fun _ => some "x") = (.ok "", 0) ∧
    translateText "hola" none (fun _ => some "x")
      = (.thrown "TypeError: Cannot read properties of undefined (reading toLowerCase)", 0) :=
  ⟨(c4_translate_noop "hola" (some "English") (fun _ => some "x")).1 "English" rfl (by decide),
   (c4_translate_noop "" (some "hindi") (fun _ => some "x")).2.1 rfl,
   (c4_translate_noop "hola" none (fun _ => some "x")).2.2 (by decide)⟩

/-- Claim C5: per-field translation failure degrades to the original text in
place and never aborts the batch: the translated batch has exactly one entry
per input field; at every index whose translation call fails the output
entry is the original input text, and at every index with non-empty text
whose call succeeds the entry is the trimmed translation. -/
theorem c5_translate_fallback (fields : List String) (lang : String)
    (svc : String → Option String) (hl : ¬jsToLower lang = "english") :
    (translateInsights fields lang svc).length = fields.length ∧
    (∀ i : Nat, ∀ hi : i < fields.length,
      (svc (translatePrompt lang fields[i]) = none →
        (translateInsights fields lang svc)[i]? = some fields[i]) ∧
      (∀ t, fields[i] ≠ "" → svc (translatePrompt lang fields[i]) = some t →
        (translateInsights fields lang svc)[i]? = some (jsTrim t))) := by
  constructor
  · simp [translateInsights]
  · intro i hi
    constructor
    · intro hfail
      rw [translateInsights, List.getElem?_map, List.getElem?_eq_getElem hi]
      by_cases ht : fields[i] = ""
      · simp [runTranslate, ht]
      · simp [runTranslate, ht, hl, hfail]
    · intro t ht hsucc
      rw [translateInsights, List.getElem?_map, List.getElem?_eq_getElem hi]
      simp [runTranslate, ht, hl, hsucc]

/-- Witness for `c5_translate_fallback`: of three fields translated to
"hindi" against a service that fails exactly on the middle field, the middle
entry is the untranslated original, its neighbours carry their (trimmed)
translations, and the batch keeps all three entries. -/
theorem c5_translate_fallback_witness :
    (translateInsights ["aa", "bb", "cc"] "hindi"
        (fun s => if s = translatePrompt "hindi" "bb" then none else some " tt ")).length = 3 ∧
    (translateInsights ["aa", "bb", "cc"] "hindi"
        (fun s => if s = translatePrompt "hindi" "bb" then none else some " tt "))[1]?
      = some "bb" ∧
    (translateInsights ["aa", "bb", "cc"] "hindi"
        (fun s => if s = translatePrompt "hindi" "bb" then none else some " tt "))[0]?
      = some (jsTrim " tt ") :=
  ⟨(c5_translate_fallback ["aa", "bb", "cc"] "hindi"
      (fun s => if s = translatePrompt "hindi" "bb" then none else some " tt ")
      (by decide)).1,
   ((c5_translate_fallback ["aa", "bb", "cc"] "hindi"
      (fun s => if s = translatePrompt "hindi" "bb" then none else some " tt ")
      (by decide)).2 1 (by decide)).1 (by decide),
   ((c5_translate_fallback ["aa", "bb", "cc"] "hindi"
      (fun s => if s = translatePrompt "hindi" "bb" then none else some " tt ")
      (by decide)).2 0 (by decide)).2 " tt " (by decide) (by decide)⟩

/-- Folding index-keyed stores preserves the accumulator length. -/
theorem foldl_set_length :
    ∀ (l : List (Nat × String)) (acc : List (Option String)),
      (l.foldl (fun a p => a.set p.1 (some p.2)) acc).length = acc.length := by
  intro l
  induction l with
  | nil => intro acc; rfl
  | cons p rest ih =>
    intro acc
    rw [List.foldl_cons, ih, List.length_set]

/-- Folding index-keyed stores leaves untouched indices unchanged. -/
theorem foldl_set_skip :
    ∀ (l : List (Nat × String)) (acc : List (Option String)) (j : Nat),
      j ∉ l.map Prod.fst →
      (l.foldl (fun a p => a.set p.1 (some p.2)) acc)[j]? = acc[j]? := by
  intro l
  induction l with
  | nil => intro acc j _; rfl
  | cons p rest ih =>
    intro acc j h
    rw [List.map_cons] at h
    rw [List.foldl_cons, ih _ j (fun hm => h (List.mem_cons_of_mem _ hm)),
      List.getElem?_set,
      if_neg (fun he : p.1 = j => h (by rw [← he]; exact List.mem_cons_self _ _))]

/-- Folding index-keyed stores writes `f j` at every stored index `j` in
range, whenever every stored pair is of the form `(i, f i)`. -/
theorem foldl_set_found (f : Nat → String) :
    ∀ (l : List (Nat × String)) (acc : List (Option String)) (j : Nat),
      (∀ p ∈ l, p.2 = f p.1) → j ∈ l.map Prod.fst → j < acc.length →
      (l.foldl (fun a p => a.set p.1 (some p.2)) acc)[j]? = some (some (f j)) := by
  intro l
  induction l with
  | nil => intro acc j _ hmem _; cases hmem
  | cons p rest ih =>
    intro acc j hval hmem hlt
    rw [List.foldl_cons]
    by_cases hr : j ∈ rest.map Prod.fst
    · exact ih _ j (fun q hq => hval q (List.mem_cons_of_mem _ hq)) hr
        (by rw [List.length_set]; exact hlt)
    · have hpj : p.1 = j := by
        rw [List.map_cons] at hmem
        rcases List.mem_cons.mp hmem with h | h
        · exact h.symm
        · exact absurd h hr
      rw [foldl_set_skip rest _ j hr, List.getElem?_set, if_pos hpj, if_pos (hpj ▸ hlt),
        hval p (List.mem_cons_self _ _), hpj]

/-- Claim C6: the concurrent translation fan-out is order-preserving — for
every arrival order of the underlying calls (any permutation of the issue
order), `Promise.all` reassembly by original index yields the positional
translation of the input list, entry `i` being the translation of field
`i`. -/
theorem c6_order_independence (fields : List String) (lang : String)
    (svc : String → Option String) (order : List Nat)
    (hperm : order.Perm (List.range fields.length)) :
    concTranslate fields lang svc order
      = fields.map (fun t => some (runTranslate t lang svc).1) := by
  apply List.ext_getElem?
  intro j
  by_cases hj : j < fields.length
  · have hmem : j ∈ order := hperm.mem_iff.mpr (List.mem_range.mpr hj)
    have hkeys : j ∈ (order.map
        (fun i => (i, (runTranslate (fields.getD i "") lang svc).1))).map Prod.fst := by
      rw [List.map_map]
      simpa using hmem
    rw [concTranslate, reassemble,
      foldl_set_found (fun i => (runTranslate (fields.getD i "") lang svc).1) _ _ j
        (by intro q hq; rcases List.mem_map.mp hq with ⟨i, _, rfl⟩; rfl)
        hkeys (by rw [List.length_replicate]; exact hj)]
    have hg : fields.getD j "" = fields[j] := by
      rw [List.getD_eq_getElem?_getD, List.getElem?_eq_getElem hj, Option.getD_some]
    rw [List.getElem?_map, List.getElem?_eq_getElem hj, hg]
    rfl
  · have hlen : (concTranslate fields lang svc order).length = fields.length := by
      rw [concTranslate, reassemble, foldl_set_length, List.length_replicate]
    rw [List.getElem?_eq_none (by omega), List.getElem?_eq_none (by rw [List.length_map]; omega)]

/-- Witness for `c6_order_independence`: three fields whose calls complete in
the order third, first, second still reassemble positionally. -/
theorem c6_order_independence_witness :
    concTranslate ["aa", "bb", "cc"] "hindi" (fun _ => some " tt ") [2, 0, 1]
      = ["aa", "bb", "cc"].map
          (fun t => some (runTranslate t "hindi" (fun _ => some " tt ")).1) :=
  c6_order_independence ["aa", "bb", "cc"] "hindi" (fun _ => some " tt ") [2, 0, 1] (by decide)

/-- Claim C7 (amended): on the sentiment-count, per-record and full-analysis
pipelines, an empty generation output yields the dedicated empty-output
failure, and a non-empty unparseable output yields the dedicated
malformed-output failure carrying the raw text; but well-formed parsed data
missing the schema's required fields is returned as a success without any
check, and the trends, insights and summary pipelines have neither dedicated
classification — a parse failure there (including the `SyntaxError` an empty
output produces, see the counterexample) is surfaced as the route's generic
failure response. -/
theorem c7_validator_classification (rows : List Row) (raw : String)
    (parse : String → Except String Json) (pmsg : String) (hne : rows ≠ []) :
    (raw = "" → countSentimentHandler rows (fun _ => Except.ok raw) parse
      = (⟨500, Json.obj [("error", Json.str "Gemini returned empty response."),
          ("result", Json.str "")]⟩, 1)) ∧
    (raw ≠ "" → parse raw = .error pmsg →
      countSentimentHandler rows (fun _ => Except.ok raw) parse
        = (⟨500, Json.obj [("error", Json.str "Gemini returned invalid JSON format."),
            ("geminiResponse", Json.str raw), ("parseError", Json.str pmsg)]⟩, 1)) ∧
    (raw ≠ "" → parse raw = .ok (Json.obj []) →
      countSentimentHandler rows (fun _ => Except.ok raw) parse
        = (⟨200, Json.obj []⟩, 1)) ∧
    (raw = "" → analyzeMultipleTweetsHandler rows (fun _ => Except.ok raw) parse
      = (⟨500, Json.obj [("error", Json.str "Gemini returned empty response.")]⟩, 1)) ∧
    (raw ≠ "" → parse raw = .error pmsg →
      analyzeMultipleTweetsHandler rows (fun _ => Except.ok raw) parse
        = (⟨500, Json.obj [("error",
            Json.str "Gemini returned invalid JSON format. Check raw output."),
            ("geminiResponse", Json.str raw)]⟩, 1)) ∧
    (¬MAX_TOKENS < estimateTokens (compactCsvOf rows) →
      (raw = "" → analyzeIndiaCsv rows (fun _ => Except.ok raw) parse
        = (⟨500, Json.obj [("error", Json.str "Gemini returned empty response."),
            ("result", Json.str "")]⟩, 1)) ∧
      (raw ≠ "" → parse raw = .error pmsg →
        analyzeIndiaCsv rows (fun _ => Except.ok raw) parse
          = (⟨500, Json.obj [("error", Json.str "Gemini returned invalid JSON format."),
              ("geminiResponse", Json.str raw), ("parseError", Json.str pmsg)]⟩, 1))) ∧
    (∀ lang tsvc, parse raw = .error pmsg →
      analyzeTrendsHandler rows lang (fun _ => Except.ok raw) parse tsvc
        = (⟨500, Json.obj [("message", Json.str "Internal Server Error"),
            ("error", Json.str pmsg)]⟩, 1)) ∧
    (∀ lang tsvc, parse raw = .error pmsg →
      strContains pmsg "token count exceeds" = false →
      generateInsightsHandler rows lang (fun _ => Except.ok raw) parse tsvc
        = (⟨500, Json.obj [("error", Json.str "Failed to process CSV file with Gemini API."),
            ("details", Json.str pmsg)]⟩, 1)) ∧
    (∀ lang tsvc, parse raw = .error pmsg →
      strContains pmsg "token count exceeds" = false →
      generateSummaryHandler rows lang (fun _ => Except.ok raw) parse tsvc
        = (⟨500, Json.obj [("error", Json.str "Failed to process CSV file with Gemini API."),
            ("details", Json.str pmsg)]⟩, 1)) := by
  refine ⟨?_, ?_, ?_, ?_, ?_, ?_, ?_, ?_, ?_⟩
  · intro hraw
    simp [countSentimentHandler, hne, hraw]
  · intro hraw hparse
    simp [countSentimentHandler, hne, hraw, hparse]
  · intro hraw hparse
    simp [countSentimentHandler, hne, hraw, hparse]
  · intro hraw
    simp [analyzeMultipleTweetsHandler, hne, hraw]
  · intro hraw hparse
    simp [analyzeMultipleTweetsHandler, hne, hraw, hparse]
  · intro hbud
    refine ⟨?_, ?_⟩
    · intro hraw
      simp [analyzeIndiaCsv, hne, hbud, hraw]
    · intro hraw hparse
      simp [analyzeIndiaCsv, hne, hbud, hraw, hparse]
  · intro lang tsvc hparse
    simp [analyzeTrendsHandler, hne, hparse]
  · intro lang tsvc hparse htok
    simp [generateInsightsHandler, handleError, hne, hparse, htok]
  · intro lang tsvc hparse htok
    simp [generateSummaryHandler, handleError, hne, hparse, htok]

/-- The claim C7 counterexample: the insights pipeline, on an EMPTY
generation output (whose `JSON.parse` throws a `SyntaxError`), answers with
the generic service-failure response — not with the empty-output
classification the claim requires of every pipeline. -/
theorem c7_counterexample :
    (generateInsightsHandler [[("tweet", "x")]] none (fun _ => Except.ok "")
        (fun _ => Except.error "Unexpected end of JSON input") (fun _ => none)).1
      = ⟨500, Json.obj [("error", Json.str "Failed to process CSV file with Gemini API."),
          ("details", Json.str "Unexpected end of JSON input")]⟩ ∧
    (generateInsightsHandler [[("tweet", "x")]] none (fun _ => Except.ok "")
        (fun _ => Except.error "Unexpected end of JSON input") (fun _ => none)).1.body.getStr
        "error" ≠ some "Gemini returned empty response." := by
  refine ⟨rfl, by decide⟩

set_option maxRecDepth 8000 in
/-- Witness for `c7_validator_classification`, exercising every branch on a
one-row dataset: empty and unparseable outputs on the sentiment-count,
per-record and full-analysis pipelines, a parsed object missing every
required field on the sentiment-count pipeline, and the generic failures of
the trends, insights and summary pipelines on an unparseable output. -/
theorem c7_validator_classification_witness :
    countSentimentHandler [[("tweet", "x")]] (fun _ => Except.ok "")
        (fun _ => Except.error "u")
      = (⟨500, Json.obj [("error", Json.str "Gemini returned empty response."),
          ("result", Json.str "")]⟩, 1) ∧
    countSentimentHandler [[("tweet", "x")]] (fun _ => Except.ok "zz")
        (fun _ => Except.error "u")
      = (⟨500, Json.obj [("error", Json.str "Gemini returned invalid JSON format."),
          ("geminiResponse", Json.str "zz"), ("parseError", Json.str "u")]⟩, 1) ∧
    countSentimentHandler [[("tweet", "x")]] (fun _ => Except.ok "zz")
        (fun _ => Except.ok (Json.obj []))
      = (⟨200, Json.obj []⟩, 1) ∧
    analyzeMultipleTweetsHandler [[("tweet", "x")]] (fun _ => Except.ok "")
        (fun _ => Except.error "u")
      = (⟨500, Json.obj [("error", Json.str "Gemini returned empty response.")]⟩, 1) ∧
    analyzeMultipleTweetsHandler [[("tweet", "x")]] (fun _ => Except.ok "zz")
        (fun _ => Except.error "u")
      = (⟨500, Json.obj [("error",
          Json.str "Gemini returned invalid JSON format. Check raw output."),
          ("geminiResponse", Json.str "zz")]⟩, 1) ∧
    analyzeIndiaCsv [[("tweet", "x")]] (fun _ => Except.ok "")
        (fun _ => Except.error "u")
      = (⟨500, Json.obj [("error", Json.str "Gemini returned empty response."),
          ("result", Json.str "")]⟩, 1) ∧
    analyzeIndiaCsv [[("tweet", "x")]] (fun _ => Except.ok "zz")
        (fun _ => Except.error "u")
      = (⟨500, Json.obj [("error", Json.str "Gemini returned invalid JSON format."),
          ("geminiResponse", Json.str "zz"), ("parseError", Json.str "u")]⟩, 1) ∧
    analyzeTrendsHandler [[("tweet", "x")]] none (fun _ => Except.ok "zz")
        (fun _ => Except.error "u") (fun _ => none)
      = (⟨500, Json.obj [("message", Json.str "Internal Server Error"),
          ("error", Json.str "u")]⟩, 1) ∧
    generateInsightsHandler [[("tweet", "x")]] none (fun _ => Except.ok "zz")
        (fun _ => Except.error "u") (fun _ => none)
      = (⟨500, Json.obj [("error", Json.str "Failed to process CSV file with Gemini API."),
          ("details", Json.str "u")]⟩, 1) ∧
    generateSummaryHandler [[("tweet", "x")]] none (fun _ => Except.ok "zz")
        (fun _ => Except.error "u") (fun _ => none)
      = (⟨500, Json.obj [("error", Json.str "Failed to process CSV file with Gemini API."),
          ("details", Json.str "u")]⟩, 1) := by
  have h1 := c7_validator_classification [[("tweet", "x")]] ""
    (fun _ => Except.error "u") "u" (by decide)
  have h2 := c7_validator_classification [[("tweet", "x")]] "zz"
    (fun _ => Except.error "u") "u" (by decide)
  have h3 := c7_validator_classification [[("tweet", "x")]] "zz"
    (fun _ => Except.ok (Json.obj [])) "u" (by decide)
  exact ⟨h1.1 rfl,
    h2.2.1 (by decide) rfl,
    h3.2.2.1 (by decide) rfl,
    h1.2.2.2.1 rfl,
    h2.2.2.2.2.1 (by decide) rfl,
    (h1.2.2.2.2.2.1 (by decide)).1 rfl,
    (h2.2.2.2.2.2.1 (by decide)).2 (by decide) rfl,
    h2.2.2.2.2.2.2.1 none (fun _ => none) rfl,
    h2.2.2.2.2.2.2.2.1 none (fun _ => none) rfl (by decide),
    h2.2.2.2.2.2.2.2.2 none (fun _ => none) rfl (by decide)⟩

/-- Claim C9 (amended): the sentiment-count handler returns the parsed
service envelope verbatim and performs no percentage computation or check of
its own; the percentage-sum property holds of the returned result exactly
when the service computed each percentage from the same counted total — if
each percentage is within `δ` of `100·count/total`, their sum is within `3δ`
of 100. -/
theorem c9_percentages (rows : List Row) (raw : String)
    (parse : String → Except String Json) (p n u pp np up δ : ℚ)
    (hne : rows ≠ []) (hraw : raw ≠ "")
    (hparse : parse raw = .ok (sentimentEnvelope p n u pp np up)) :
    countSentimentHandler rows (fun _ => Except.ok raw) parse
      = (⟨200, sentimentEnvelope p n u pp np up⟩, 1) ∧
    (0 < p + n + u →
      |pp - 100 * p / (p + n + u)| ≤ δ →
      |np - 100 * n / (p + n + u)| ≤ δ →
      |up - 100 * u / (p + n + u)| ≤ δ →
      |pp + np + up - 100| ≤ 3 * δ) := by
  constructor
  · simp [countSentimentHandler, hne, hraw, hparse]
  · intro htot h1 h2 h3
    have hne0 : p + n + u ≠ 0 := ne_of_gt htot
    have hsum : 100 * p / (p + n + u) + 100 * n / (p + n + u) + 100 * u / (p + n + u)
        = 100 := by
      field_simp
      ring
    have hdiff : pp + np + up - 100 =
        (pp - 100 * p / (p + n + u)) + (np - 100 * n / (p + n + u))
          + (up - 100 * u / (p + n + u)) := by
      linear_combination hsum
    rw [hdiff]
    calc |(pp - 100 * p / (p + n + u)) + (np - 100 * n / (p + n + u))
            + (up - 100 * u / (p + n + u))|
        ≤ |pp - 100 * p / (p + n + u)| + |np - 100 * n / (p + n + u)|
            + |up - 100 * u / (p + n + u)| := abs_add_three _ _ _
      _ ≤ 3 * δ := by linarith

/-- The claim C9 counterexample: a parsed envelope counting one positive
record but carrying all-zero percentages is returned to the caller verbatim;
its percentages sum to 0, not to 100 within tolerance, although
positive + negative + neutral = 1 > 0. -/
theorem c9_counterexample :
    (countSentimentHandler [[("tweet", "x")]] (fun _ => Except.ok "r")
        (fun _ => Except.ok (sentimentEnvelope 1 0 0 0 0 0))).1
      = ⟨200, sentimentEnvelope 1 0 0 0 0 0⟩ ∧
    (0 : ℚ) < 1 + 0 + 0 ∧
    ¬(|(0 : ℚ) + 0 + 0 - 100| ≤ 1) := by
  refine ⟨rfl, by norm_num, by norm_num⟩

/-- Witness for `c9_percentages`: a conforming service envelope (three
positives, percentages 100/0/0) is passed through and its percentages sum to
exactly 100 (tolerance 0). -/
theorem c9_percentages_witness :
    countSentimentHandler [[("tweet", "x")]] (fun _ => Except.ok "r")
        (fun _ => Except.ok (sentimentEnvelope 3 0 0 100 0 0))
      = (⟨200, sentimentEnvelope 3 0 0 100 0 0⟩, 1) ∧
    |(100 : ℚ) + 0 + 0 - 100| ≤ 3 * 0 :=
  ⟨(c9_percentages [[("tweet", "x")]] "r"
      (fun _ => Except.ok (sentimentEnvelope 3 0 0 100 0 0)) 3 0 0 100 0 0 0
      (by decide) (by decide) rfl).1,
   (c9_percentages [[("tweet", "x")]] "r"
      (fun _ => Except.ok (sentimentEnvelope 3 0 0 100 0 0)) 3 0 0 100 0 0 0
      (by decide) (by decide) rfl).2 (by norm_num) (by norm_num) (by norm_num) (by norm_num)⟩

/-- Unfolding equation of `jsonLookup` on a cons cell. -/
theorem jsonLookup_cons (a : String) (b : Json) (rest : List (String × Json)) (k : String) :
    jsonLookup ((a, b) :: rest) k = if a = k then some b else jsonLookup rest k := rfl

/-- Overriding entries of a different key does not change a lookup. -/
theorem jsonLookup_map_override_ne (k2 k : String) (v : Json) (h : k2 ≠ k)
    (fields : List (String × Json)) :
    jsonLookup (fields.map (fun p => if p.1 = k2 then (k2, v) else p)) k
      = jsonLookup fields k := by
  induction fields with
  | nil => rfl
  | cons p rest ih =>
    cases p with
    | mk k3 w =>
      rw [List.map_cons]
      by_cases h3 : k3 = k2
      · rw [show (if (k3, w).1 = k2 then (k2, v) else (k3, w)) = (k2, v) from by simp [h3]]
        rw [jsonLookup_cons, jsonLookup_cons, if_neg h,
          if_neg (show ¬k3 = k from fun hk => h (h3 ▸ hk)), ih]
      · rw [show (if (k3, w).1 = k2 then (k2, v) else (k3, w)) = (k3, w) from by simp [h3]]
        rw [jsonLookup_cons, jsonLookup_cons, ih]

/-- Appending an entry of a different key does not change a lookup. -/
theorem jsonLookup_append_ne (k2 k : String) (v : Json) (h : k2 ≠ k)
    (fields : List (String × Json)) :
    jsonLookup (fields ++ [(k2, v)]) k = jsonLookup fields k := by
  induction fields with
  | nil =>
    show jsonLookup [(k2, v)] k = none
    rw [jsonLookup_cons, if_neg h]
    rfl
  | cons p rest ih =>
    cases p with
    | mk k3 w =>
      rw [List.cons_append, jsonLookup_cons, jsonLookup_cons, ih]

/-- Assignment under a different key does not change a lookup. -/
theorem jsonLookup_jsSet_ne (fields : List (String × Json)) (k2 k : String) (v : Json)
    (h : k2 ≠ k) : jsonLookup (jsSet fields k2 v) k = jsonLookup fields k := by
  rw [jsSet]
  split_ifs with hany
  · exact jsonLookup_map_override_ne k2 k v h fields
  · exact jsonLookup_append_ne k2 k v h fields

/-- Spreading an object none of whose keys is `k` does not change the lookup
of `k`. -/
theorem jsonLookup_spread_ne (fields : List (String × Json)) :
    ∀ (base : List (String × Json)) (k : String), (∀ p ∈ fields, p.1 ≠ k) →
      jsonLookup (fields.foldl (fun acc p => jsSet acc p.1 p.2) base) k
        = jsonLookup base k := by
  induction fields with
  | nil => intro base k _; rfl
  | cons p rest ih =>
    intro base k h
    rw [List.foldl_cons, ih _ k (fun q hq => h q (List.mem_cons_of_mem _ hq)),
      jsonLookup_jsSet_ne base p.1 k p.2 (h p (List.mem_cons_self _ _))]

/-- Every member of a zipped list comes from a pair of members. -/
theorem mem_zipWith_pair {α β γ : Type} (g : α → β → γ) :
    ∀ (l1 : List α) (l2 : List β) (e : γ), e ∈ List.zipWith g l1 l2 →
      ∃ a b, a ∈ l1 ∧ b ∈ l2 ∧ e = g a b := by
  intro l1
  induction l1 with
  | nil => intro l2 e h; simp at h
  | cons x xs ih =>
    intro l2 e h
    cases l2 with
    | nil => simp at h
    | cons y ys =>
      rw [List.zipWith_cons_cons] at h
      rcases List.mem_cons.mp h with rfl | hmem
      · exact ⟨x, y, List.mem_cons_self _ _, List.mem_cons_self _ _, rfl⟩
      · rcases ih ys e hmem with ⟨a, b, ha, hb, he⟩
        exact ⟨a, b, List.mem_cons_of_mem _ ha, List.mem_cons_of_mem _ hb, he⟩

/-- Zipping that only keeps the left component is a map, when the right list
is at least as long. -/
theorem zipWith_left_of_length_le {α β : Type} :
    ∀ (l1 : List α) (l2 : List β), l1.length ≤ l2.length →
      List.zipWith (fun a _ => some a) l1 l2 = l1.map some := by
  intro l1
  induction l1 with
  | nil => intro l2 _; simp
  | cons x xs ih =>
    intro l2 h
    cases l2 with
    | nil => simp at h
    | cons y ys =>
      rw [List.zipWith_cons_cons, List.map_cons, ih ys (by simpa using h)]

/-- Claim C3 (amended): the per-record sentiment handler passes the parsed
`sentiments` array through unchanged with `count` set to the sampled size and
status 200; the claim's guarantees — exactly one entry per sampled record,
ids in positional correspondence with the sampled record ids, and every
score an integer in [1,5] — hold of the returned result precisely when the
generation service's response satisfies them (as the declared schema
instructs), because the handler itself never validates the response against
the sample. -/
theorem c3_per_record_sentiment (rows : List Row) (raw : String)
    (parse : String → Except String Json) (ids : List String) (scores : List ℚ)
    (hne : rows ≠ []) (hraw : raw ≠ "")
    (hids : ids = (sampleRowsOf rows START_INDEX MAX_ROWS).map rowId)
    (hlen : scores.length = ids.length)
    (hparse : parse raw = .ok (Json.obj [("sentiments", Json.arr
      (List.zipWith (fun i s => Json.obj [("id", Json.str i),
        ("sentiment_score", Json.num s)]) ids scores))]))
    (hscore : ∀ s ∈ scores, 1 ≤ s ∧ s ≤ 5 ∧ s.den = 1) :
    (analyzeMultipleTweetsHandler rows (fun _ => Except.ok raw) parse).1.status = 200 ∧
    (analyzeMultipleTweetsHandler rows (fun _ => Except.ok raw) parse).2 = 1 ∧
    (analyzeMultipleTweetsHandler rows (fun _ => Except.ok raw) parse).1.body.getArr
        "sentiments"
      = some (List.zipWith (fun i s => Json.obj [("id", Json.str i),
          ("sentiment_score", Json.num s)]) ids scores) ∧
    (analyzeMultipleTweetsHandler rows (fun _ => Except.ok raw) parse).1.body.getNum "count"
      = some ((sampleRowsOf rows START_INDEX MAX_ROWS).length : ℚ) ∧
    (List.zipWith (fun i s => Json.obj [("id", Json.str i),
        ("sentiment_score", Json.num s)]) ids scores).length
      = (sampleRowsOf rows START_INDEX MAX_ROWS).length ∧
    (List.zipWith (fun i s => Json.obj [("id", Json.str i),
        ("sentiment_score", Json.num s)]) ids scores).map (fun e => e.getStr "id")
      = (sampleRowsOf rows START_INDEX MAX_ROWS).map (fun r => some (rowId r)) ∧
    (∀ e ∈ List.zipWith (fun i s => Json.obj [("id", Json.str i),
        ("sentiment_score", Json.num s)]) ids scores,
      ∃ s : ℚ, e.getNum "sentiment_score" = some s ∧ 1 ≤ s ∧ s ≤ 5 ∧ s.den = 1) := by
  have hh : analyzeMultipleTweetsHandler rows (fun _ => Except.ok raw) parse
      = (⟨200, Json.obj (jsSpreadInto
          [("count", Json.num ((sampleRowsOf rows START_INDEX MAX_ROWS).length : ℚ))]
          (Json.obj [("sentiments", Json.arr
            (List.zipWith (fun i s => Json.obj [("id", Json.str i),
              ("sentiment_score", Json.num s)]) ids scores))]))⟩, 1) := by
    simp [analyzeMultipleTweetsHandler, hne, hraw, hparse]
  have hzlen : (List.zipWith (fun i s => Json.obj [("id", Json.str i),
      ("sentiment_score", Json.num s)]) ids scores).length
      = (sampleRowsOf rows START_INDEX MAX_ROWS).length := by
    rw [List.length_zipWith, hlen, Nat.min_self, hids, List.length_map]
  refine ⟨by rw [hh], by rw [hh], ?_, ?_, hzlen, ?_, ?_⟩
  · rw [hh]
    rfl
  · rw [hh]
    rfl
  · rw [List.map_zipWith]
    have hz : ∀ (l1 : List String) (l2 : List ℚ),
        List.zipWith (fun (i : String) (s : ℚ) =>
          (Json.obj [("id", Json.str i), ("sentiment_score", Json.num s)]).getStr "id") l1 l2
        = List.zipWith (fun i _ => some i) l1 l2 := by
      intro l1
      induction l1 with
      | nil => intro l2; rfl
      | cons x xs ih =>
        intro l2
        cases l2 with
        | nil => rfl
        | cons y ys =>
          rw [List.zipWith_cons_cons, List.zipWith_cons_cons, ih]
          rfl
    rw [hz, zipWith_left_of_length_le ids scores (ge_of_eq hlen), hids,
      List.map_map]
    rfl
  · intro e he
    rcases mem_zipWith_pair _ ids scores e he with ⟨i, s, _, hs, rfl⟩
    exact ⟨s, rfl, hscore s hs⟩

/-- The claim C3 counterexample: a parsed service response whose `sentiments`
array is EMPTY, for a one-record sample, is returned to the caller as-is:
the result carries zero sentiment entries for one sampled record. -/
theorem c3_counterexample :
    (analyzeMultipleTweetsHandler [[("id", "1"), ("tweet", "hi")]]
        (fun _ => Except.ok "r")
        (fun _ => Except.ok (Json.obj [("sentiments", Json.arr [])]))).1.status = 200 ∧
    ((analyzeMultipleTweetsHandler [[("id", "1"), ("tweet", "hi")]]
        (fun _ => Except.ok "r")
        (fun _ => Except.ok (Json.obj [("sentiments", Json.arr [])]))).1.body.getArr
        "sentiments").map List.length
      = some 0 ∧
    (sampleRowsOf [[("id", "1"), ("tweet", "hi")]] START_INDEX MAX_ROWS).length = 1 ∧
    (0 : Nat) ≠ 1 := by
  refine ⟨rfl, rfl, rfl, by decide⟩

/-- Witness for `c3_per_record_sentiment`: one sampled record with id "7" and
a conforming service response scoring it 4. -/
theorem c3_per_record_sentiment_witness :
    (analyzeMultipleTweetsHandler [[("id", "7"), ("tweet", "x")]]
        (fun _ => Except.ok "r")
        (fun _ => Except.ok (Json.obj [("sentiments", Json.arr
          (List.zipWith (fun i s => Json.obj [("id", Json.str i),
            ("sentiment_score", Json.num s)]) ["7"] [4]))]))).1.status = 200 ∧
    (analyzeMultipleTweetsHandler [[("id", "7"), ("tweet", "x")]]
        (fun _ => Except.ok "r")
        (fun _ => Except.ok (Json.obj [("sentiments", Json.arr
          (List.zipWith (fun i s => Json.obj [("id", Json.str i),
            ("sentiment_score", Json.num s)]) ["7"] [4]))]))).1.body.getArr "sentiments"
      = some (List.zipWith (fun i s => Json.obj [("id", Json.str i),
          ("sentiment_score", Json.num s)]) ["7"] [4]) ∧
    (List.zipWith (fun i s => Json.obj [("id", Json.str i),
        ("sentiment_score", Json.num s)]) ["7"] [4]).length
      = (sampleRowsOf [[("id", "7"), ("tweet", "x")]] START_INDEX MAX_ROWS).length := by
  have h := c3_per_record_sentiment [[("id", "7"), ("tweet", "x")]] "r"
    (fun _ => Except.ok (Json.obj [("sentiments", Json.arr
      (List.zipWith (fun i s => Json.obj [("id", Json.str i),
        ("sentiment_score", Json.num s)]) ["7"] [4]))]))
    ["7"] [4] (by decide) (by decide) (by decide) (by decide) rfl
    (by intro s hs; rcases List.mem_singleton.mp hs with rfl; refine ⟨by norm_num, by norm_num, rfl⟩)
  exact ⟨h.1, h.2.2.1, h.2.2.2.2.1⟩

/-- Claim C10 (amended): for every service response that parses to an object
without a top-level `count` entry (every schema-conformant response in
particular), the per-record sentiment result's `count` equals the number of
sampled records presented, whatever the response's `sentiments` array
contains — the two are never cross-checked.  (When the parsed object does
carry a `count` entry, the object spread places it after the handler's own,
so the service's value overrides; see the counterexample.) -/
theorem c10_count_uncrosschecked (rows : List Row) (raw : String)
    (parse : String → Except String Json) (fields : List (String × Json))
    (hne : rows ≠ []) (hraw : raw ≠ "")
    (hparse : parse raw = .ok (Json.obj fields))
    (hnocount : ∀ p ∈ fields, p.1 ≠ "count") :
    (analyzeMultipleTweetsHandler rows (fun _ => Except.ok raw) parse).1.body.getNum "count"
      = some ((sampleRowsOf rows START_INDEX MAX_ROWS).length : ℚ) ∧
    (analyzeMultipleTweetsHandler rows (fun _ => Except.ok raw) parse).1.status = 200 := by
  have hh : analyzeMultipleTweetsHandler rows (fun _ => Except.ok raw) parse
      = (⟨200, Json.obj (jsSpreadInto
          [("count", Json.num ((sampleRowsOf rows START_INDEX MAX_ROWS).length : ℚ))]
          (Json.obj fields))⟩, 1) := by
    simp [analyzeMultipleTweetsHandler, hne, hraw, hparse]
  rw [hh]
  constructor
  · show Json.getNum _ "count" = _
    rw [Json.getNum, Json.getField]
    show (match jsonLookup (jsSpreadInto _ (Json.obj fields)) "count" with
      | some (Json.num q) => some q | _ => none) = _
    rw [show jsSpreadInto
        [("count", Json.num ((sampleRowsOf rows START_INDEX MAX_ROWS).length : ℚ))]
        (Json.obj fields)
      = fields.foldl (fun acc p => jsSet acc p.1 p.2)
        [("count", Json.num ((sampleRowsOf rows START_INDEX MAX_ROWS).length : ℚ))] from rfl]
    rw [jsonLookup_spread_ne fields _ "count" hnocount]
    rfl
  · rfl

/-- The claim C10 counterexample: a parsed response carrying its own
`count: 999` overrides the handler's sampled count (one record sampled), so
the result's `count` is 999, not the number of sampled records. -/
theorem c10_counterexample :
    (analyzeMultipleTweetsHandler [[("id", "1"), ("tweet", "t")]]
        (fun _ => Except.ok "r")
        (fun _ => Except.ok (Json.obj [("count", Json.num 999),
          ("sentiments", Json.arr [])]))).1.body.getNum "count" = some 999 ∧
    (sampleRowsOf [[("id", "1"), ("tweet", "t")]] START_INDEX MAX_ROWS).length = 1 ∧
    (999 : ℚ) ≠ 1 := by
  refine ⟨rfl, rfl, by norm_num⟩

/-- Witness for `c10_count_uncrosschecked`: a one-record sample and a parsed
response with an empty `sentiments` array and no `count` key still yields
`count = 1`. -/
theorem c10_count_uncrosschecked_witness :
    (analyzeMultipleTweetsHandler [[("id", "1"), ("tweet", "t")]]
        (fun _ => Except.ok "r")
        (fun _ => Except.ok (Json.obj [("sentiments", Json.arr [])]))).1.body.getNum "count"
      = some ((sampleRowsOf [[("id", "1"), ("tweet", "t")]] START_INDEX MAX_ROWS).length : ℚ) ∧
    (analyzeMultipleTweetsHandler [[("id", "1"), ("tweet", "t")]]
        (fun _ => Except.ok "r")
        (fun _ => Except.ok (Json.obj [("sentiments", Json.arr [])]))).1.status = 200 :=
  c10_count_uncrosschecked [[("id", "1"), ("tweet", "t")]] "r"
    (fun _ => Except.ok (Json.obj [("sentiments", Json.arr [])]))
    [("sentiments", Json.arr [])] (by decide) (by decide) rfl
    (by intro p hp; rcases List.mem_singleton.mp hp with rfl; decide)
